import Mathlib

/-
Shallow embedding of src/src/index.c (pg_check index-page validator).

The C functions receive a parsed `PageHeader header` (pd_lower / pd_upper /
pd_special and the pd_linp slot array) next to the raw `char *buffer`; here
the header is a structure and the buffer is a byte map `Nat -> Nat`, read
little-endian.  Values the C code keeps in `int` variables are `Int` here;
unsigned fields are `Nat`.  The PostgreSQL macros used by index.c
(itup.h, nbtree.h, bufpage.h, postgres.h, tupmacs.h of the PostgreSQL 9.1
era this code compiles against) are translated right below, for a
little-endian LP64 platform.
-/

/-- Page size in bytes (PostgreSQL compile-time constant, default 8192). -/
def BLCKSZ : Nat := 8192

/-- ItemIdData lp_flags values (storage/itemid.h). -/
def LP_UNUSED : Nat := 0

def LP_NORMAL : Nat := 1

def LP_REDIRECT : Nat := 2

def LP_DEAD : Nat := 3

/-- btpo_flags bits (nbtree.h). -/
def BTP_LEAF : Nat := 1

def BTP_DELETED : Nat := 4

/-- BTREE_MAGIC, nbtree.h. -/
def BTREE_MAGIC : Nat := 0x053162

/-- BTREE_VERSION of the era this code targets. -/
def BTREE_VERSION : Nat := 2

/-- P_NONE, nbtree.h. -/
def P_NONE : Nat := 0

/-- One entry of the pd_linp slot array: 15-bit offset, 2-bit flags, 15-bit length. -/
structure ItemIdData where
  lp_off : Nat
  lp_flags : Nat
  lp_len : Nat
deriving Inhabited, DecidableEq

/-- The parsed view of PageHeaderData that the C functions receive as
`PageHeader header` (the caller casts the buffer; only the fields index.c
touches are kept). -/
structure PageHeaderData where
  pd_lower : Nat
  pd_upper : Nat
  pd_special : Nat
  pd_linp : List ItemIdData
deriving Inhabited

/-- The per-column schema data index.c reads from Form_pg_attribute. -/
structure PgAttribute where
  attlen : Int
  attbyval : Bool
  attalign : Char
deriving Inhabited, DecidableEq

/-- The part of Relation that index.c uses: rel->rd_att->natts attributes
(natts is the list length). -/
structure Relation where
  atts : List PgAttribute
deriving Inhabited

/-- One byte of the page buffer.  A C `char *` carries no length, so the
buffer is a total byte map; an index at or beyond BLCKSZ is an
out-of-bounds dereference of the real page.  Negative addresses (never
reached by the checked code on the inputs below) read as 0. -/
def readByte (buffer : Nat → Nat) (i : Int) : Nat :=
  if 0 ≤ i then buffer i.toNat % 256 else 0

/-- Little-endian 16-bit read. -/
def read2 (buffer : Nat → Nat) (i : Int) : Nat :=
  readByte buffer i + 256 * readByte buffer (i + 1)

/-- Little-endian 32-bit read. -/
def read4 (buffer : Nat → Nat) (i : Int) : Nat :=
  readByte buffer i + 256 * readByte buffer (i + 1) +
    65536 * readByte buffer (i + 2) + 16777216 * readByte buffer (i + 3)

/-- Reinterpret a 32-bit unsigned value as int32 (for fields declared int32,
such as va_rawsize). -/
def toInt32 (n : Nat) : Int :=
  if n < 2147483648 then (n : Int) else (n : Int) - 4294967296

/-- TYPEALIGN(ALIGNVAL, LEN) of c.h, for the nonnegative offsets the checker
produces (the C macro computes in uintptr_t). -/
def TYPEALIGN (a v : Int) : Int := ((v + a - 1) / a) * a

/-- MAXALIGN on Int offsets (MAXIMUM_ALIGNOF = 8 on LP64). -/
def MAXALIGN_I (v : Int) : Int := TYPEALIGN 8 v

/-- MAXALIGN on Nat constants. -/
def MAXALIGN_N (v : Nat) : Nat := ((v + 7) / 8) * 8

/-- att_align_nominal of tupmacs.h: 'i' → INTALIGN, 'c' → unchanged,
'd' → DOUBLEALIGN, otherwise SHORTALIGN. -/
def att_align_nominal (cur_offset : Int) (attalign : Char) : Int :=
  if attalign = 'i' then TYPEALIGN 4 cur_offset
  else if attalign = 'c' then cur_offset
  else if attalign = 'd' then TYPEALIGN 8 cur_offset
  else TYPEALIGN 2 cur_offset

/-- att_align_pointer of tupmacs.h: a varlena attribute (attlen == -1) whose
first byte at the current offset is not a pad byte is left unaligned;
everything else gets att_align_nominal.  The pad-byte test dereferences
buffer + cur_offset. -/
def att_align_pointer (cur_offset : Int) (attalign : Char) (attlen : Int)
    (buffer : Nat → Nat) : Int :=
  if attlen = -1 ∧ readByte buffer cur_offset ≠ 0 then cur_offset
  else att_align_nominal cur_offset attalign

/-- VARATT_IS_1B, postgres.h (little-endian). -/
def VARATT_IS_1B (buffer : Nat → Nat) (off : Int) : Bool :=
  (readByte buffer off &&& 0x01) == 0x01

/-- VARATT_IS_1B_E, postgres.h (little-endian). -/
def VARATT_IS_1B_E (buffer : Nat → Nat) (off : Int) : Bool :=
  readByte buffer off == 0x01

/-- VARSIZE_1B, postgres.h (little-endian). -/
def VARSIZE_1B (buffer : Nat → Nat) (off : Int) : Nat :=
  (readByte buffer off >>> 1) &&& 0x7F

/-- VARSIZE_1B_E, postgres.h of the 9.1 era: the va_len_1be byte right after
the 1-byte header. -/
def VARSIZE_1B_E (buffer : Nat → Nat) (off : Int) : Nat :=
  readByte buffer (off + 1)

/-- VARSIZE_4B, postgres.h (little-endian): (va_header >> 2) & 0x3FFFFFFF. -/
def VARSIZE_4B (buffer : Nat → Nat) (off : Int) : Nat :=
  (read4 buffer off >>> 2) &&& 0x3FFFFFFF

/-- VARSIZE_ANY, postgres.h. -/
def VARSIZE_ANY (buffer : Nat → Nat) (off : Int) : Nat :=
  if VARATT_IS_1B_E buffer off then VARSIZE_1B_E buffer off
  else if VARATT_IS_1B buffer off then VARSIZE_1B buffer off
  else VARSIZE_4B buffer off

/-- VARATT_IS_COMPRESSED = VARATT_IS_4B_C, postgres.h (little-endian). -/
def VARATT_IS_COMPRESSED (buffer : Nat → Nat) (off : Int) : Bool :=
  (readByte buffer off &&& 0x03) == 0x02

/-- VARRAWSIZE_4B_C, postgres.h: the int32 va_rawsize sitting after the
4-byte varlena header. -/
def VARRAWSIZE_4B_C (buffer : Nat → Nat) (off : Int) : Int :=
  toInt32 (read4 buffer (off + 4))

/-- Byte address of the t_info field of the IndexTupleData that
check_index_tuple materialises at buffer + lp_off (t_tid occupies the first
6 bytes). -/
def t_info_addr (lp_off : Nat) : Nat := lp_off + 6

/-- The uint16 t_info of the index tuple at lp_off, as read from the page
bytes. -/
def t_info (buffer : Nat → Nat) (lp_off : Nat) : Nat :=
  read2 buffer (t_info_addr lp_off : Int)

/-- IndexTupleSize: t_info & INDEX_SIZE_MASK (0x1FFF), itup.h. -/
def IndexTupleSize (info : Nat) : Nat := info &&& 0x1FFF

/-- IndexTupleHasNulls: t_info & INDEX_NULL_MASK (0x8000), itup.h. -/
def IndexTupleHasNulls (info : Nat) : Bool := (info &&& 0x8000) != 0

/-- IndexInfoFindDataOffset, itup.h: MAXALIGN(sizeof(IndexTupleData)) when
there is no null bitmap, otherwise MAXALIGN(sizeof(IndexTupleData) +
sizeof(IndexAttributeBitMapData)); the struct sizes are 8 and 4. -/
def IndexInfoFindDataOffset (info : Nat) : Nat :=
  if IndexTupleHasNulls info then MAXALIGN_N (8 + 4) else MAXALIGN_N 8

/-- att_isnull(ATT, BITS), tupmacs.h: bit ATT of the null bitmap is clear. -/
def att_isnull (j : Nat) (buffer : Nat → Nat) (bitmapOff : Nat) : Bool :=
  decide ((readByte buffer ((bitmapOff + j / 8 : Nat) : Int) &&& (1 <<< (j % 8))) = 0)

/-- P_ISLEAF(opaque): btpo_flags & BTP_LEAF, nbtree.h. -/
def P_ISLEAF (flags : Nat) : Bool := (flags &&& BTP_LEAF) != 0

/-- P_ISDELETED(opaque): btpo_flags & BTP_DELETED, nbtree.h. -/
def P_ISDELETED (flags : Nat) : Bool := (flags &&& BTP_DELETED) != 0

/-- P_FIRSTDATAKEY(opaque), nbtree.h: P_HIKEY (1) on a rightmost page
(btpo_next == P_NONE), else P_FIRSTKEY (2). -/
def P_FIRSTDATAKEY (btpo_next : Nat) : Nat := if btpo_next = P_NONE then 1 else 2

/-- PageGetMaxOffsetNumber, bufpage.h: (pd_lower − SizeOfPageHeaderData) /
sizeof(ItemIdData), 0 when pd_lower is at most the 24-byte header. -/
def PageGetMaxOffsetNumber (header : PageHeaderData) : Nat :=
  if header.pd_lower ≤ 24 then 0 else (header.pd_lower - 24) / 4

/-! ## check_index_page (index.c lines 22-105) -/

/-- Modelled from the spec: check_page_header lives in src/common.c, which is
not part of this repository snapshot; per the spec it verifies that the
declared header offsets are within the buffer and self-consistent, each
violation counting one error.  No claim below is decided by this
definition; it only completes check_index_page. -/
def check_page_header (header : PageHeaderData) (block : Nat) : Nat :=
  (if header.pd_lower > BLCKSZ then 1 else 0) +
  (if header.pd_upper > BLCKSZ then 1 else 0) +
  (if header.pd_special > BLCKSZ then 1 else 0) +
  (if header.pd_lower > header.pd_upper ∨ header.pd_upper > header.pd_special then 1 else 0)

/-- btm_magic of BTMetaPageData: BTPageGetMeta(buffer) points at
buffer + SizeOfPageHeaderData (= 24); btm_magic is its first uint32. -/
def btm_magic (buffer : Nat → Nat) : Nat := read4 buffer 24

/-- btm_version of BTMetaPageData: the uint32 after btm_magic. -/
def btm_version (buffer : Nat → Nat) : Nat := read4 buffer 28

/-- The meta-page checks of check_index_page, index.c lines 40-54: magic and
version are tested one after the other, one error each (no short-circuit). -/
def metapage_errors (buffer : Nat → Nat) : Nat :=
  (if btm_magic buffer ≠ BTREE_MAGIC then 1 else 0) +
  (if btm_version buffer ≠ BTREE_VERSION then 1 else 0)

/-- sizeof(BTPageOpaque) as the C expression at index.c line 64 evaluates it:
BTPageOpaque is a POINTER typedef (BTPageOpaqueData *), so this is the
pointer size, 8 on LP64 (4 on a 32-bit build). -/
def sizeof_btpo_ptr : Nat := 8

/-- sizeof(BTPageOpaqueData), the actual special-space trailer:
btpo_prev (4) + btpo_next (4) + btpo level/xact union (4) +
btpo_flags (2) + btpo_cycleid (2) = 16 bytes. -/
def sizeof_btpo_data : Nat := 16

/-- The special-space check of check_index_page, index.c lines 64-72:
error iff pd_special > BLCKSZ - sizeof(BTPageOpaque).  ptrSize stands for
the platform value of sizeof(BTPageOpaque). -/
def special_space_error (ptrSize : Nat) (pd_special : Nat) : Nat :=
  if pd_special > BLCKSZ - ptrSize then 1 else 0

/-- The leaf/level-consistency checks of check_index_page, index.c lines
79-101.  The trailer fields are read from the page bytes at pd_special:
btpo.level is the uint32 at offset 8 of BTPageOpaqueData, btpo_flags the
uint16 at offset 12.  Deleted pages are exempt. -/
def level_errors (buffer : Nat → Nat) (pd_special : Nat) : Nat :=
  let flags := read2 buffer ((pd_special : Int) + 12)
  let level := read4 buffer ((pd_special : Int) + 8)
  if P_ISDELETED flags = false then
    if P_ISLEAF flags = true then (if level ≠ 0 then 1 else 0)
    else (if level = 0 then 1 else 0)
  else 0

/-- check_index_page, index.c lines 22-105 (the unused Relation argument of
the C function is dropped).  block 0 is BTREE_METAPAGE. -/
def check_index_page (header : PageHeaderData) (buffer : Nat → Nat) (block : Nat) : Nat :=
  check_page_header header block +
  (if block = 0 then metapage_errors buffer
   else special_space_error sizeof_btpo_ptr header.pd_special +
        level_errors buffer header.pd_special)

/-! ## check_index_tuple_attributes (index.c lines 206-364) -/

/-- strnlen(s, n) over the byte map: number of bytes before the first NUL,
reading at most n bytes starting at s. -/
def strnlen (buffer : Nat → Nat) (s : Int) : Nat → Nat
  | 0 => 0
  | n + 1 => if readByte buffer s = 0 then 0 else strnlen buffer (s + 1) n + 1

/-- The implicit int → size_t conversion of strnlen's second argument
(two's complement, 64-bit). -/
def toSizeT (n : Int) : Nat := (n % (18446744073709551616 : Int)).toNat

/-- The C-string length computation of index.c line 319:
len = strnlen(buffer + off, linp->lp_off + len + linp->lp_len - off) + 1.
The `len` read on the right-hand side is the per-iteration variable before
this iteration assigned it — the value left in its stack slot by the
previous iteration (indeterminate on first use); it enters here as
lenPrev. -/
def varwidth_len (buffer : Nat → Nat) (lp : ItemIdData) (off lenPrev : Int) : Int :=
  (strnlen buffer off (toSizeT ((lp.lp_off : Int) + lenPrev + (lp.lp_len : Int) - off)) : Nat) + 1

/-- The per-attribute length computation and varlena checks of index.c lines
276-325, after the alignment fixup: the body of the attribute loop between
the branch on is_varlena/is_varwidth and the common overflow check.
Except.error (n, off) is the break of line 295 (negative varlena length:
one error, stop scanning); Except.ok (len, nerrs) carries the computed
length and the error count after the non-fatal compressed-rawsize check of
lines 298-310 (1024*1024 is the bound the C source wrote). -/
def attr_step (buffer : Nat → Nat) (lp : ItemIdData) (off lenPrev : Int)
    (nerrs : Nat) (attr : PgAttribute) : Except (Nat × Int) (Int × Nat) :=
  if attr.attbyval = false ∧ attr.attlen = -1 then
    let len : Int := (VARSIZE_ANY buffer off : Int)
    if len < 0 then Except.error (nerrs + 1, off)
    else if VARATT_IS_COMPRESSED buffer off = true ∧
            (VARRAWSIZE_4B_C buffer off < 0 ∨ VARRAWSIZE_4B_C buffer off > 1024 * 1024) then
      Except.ok (len, nerrs + 1)
    else Except.ok (len, nerrs)
  else if attr.attbyval = false ∧ attr.attlen < 0 then
    Except.ok (varwidth_len buffer lp off lenPrev, nerrs)
  else
    Except.ok (attr.attlen, nerrs)

/-- The attribute loop of index.c lines 253-348.  j is the attribute index
(for the null bitmap at lp_off + sizeof(IndexTupleData)), off the running
offset, lenPrev the stack slot of the per-iteration `int len` (read before
assignment by the varwidth branch), nerrs the error count.  Returns the
error count and the final off at loop exit (the post-loop check of line
355 runs in the caller).  A null attribute is skipped without touching off
or len; otherwise off is aligned, the length computed (attr_step), the
overflow check of lines 332-340 may add one error and break, and off
advances by len only when dlen > 0 (line 343). -/
def attr_loop (buffer : Nat → Nat) (lp : ItemIdData) (hasNulls : Bool) (dlen : Int)
    (attrs : List PgAttribute) (j : Nat) (off lenPrev : Int) (nerrs : Nat) : Nat × Int :=
  match attrs with
  | [] => (nerrs, off)
  | attr :: rest =>
    if hasNulls && att_isnull j buffer (lp.lp_off + 8) then
      attr_loop buffer lp hasNulls dlen rest (j + 1) off lenPrev nerrs
    else
      let off1 := att_align_pointer off attr.attalign attr.attlen buffer
      match attr_step buffer lp off1 lenPrev nerrs attr with
      | Except.error r => r
      | Except.ok (len, nerrs1) =>
        if dlen > 0 ∧ off1 + len > (lp.lp_off : Int) + (lp.lp_len : Int) then
          (nerrs1 + 1, off1)
        else
          attr_loop buffer lp hasNulls dlen rest (j + 1)
            (off1 + if dlen > 0 then len else 0) len nerrs1

/-- check_index_tuple_attributes, index.c lines 206-364.  offnum is 1-based;
len0 is the indeterminate initial content of the stack slot of the
loop-local `int len` (see varwidth_len).  The degenerate first-data-key
tuple of a non-leaf page (dlen == 0) is skipped with zero errors; after
the loop, MAXALIGN(off) beyond the tuple end is one more error. -/
def check_index_tuple_attributes (rel : Relation) (header : PageHeaderData) (block : Nat)
    (offnum : Nat) (buffer : Nat → Nat) (dlen : Int) (len0 : Int) : Nat :=
  let linp := header.pd_linp.getD (offnum - 1) default
  let info := t_info buffer linp.lp_off
  let off : Int := (linp.lp_off : Int) + (IndexInfoFindDataOffset info : Int)
  let flags := read2 buffer ((header.pd_special : Int) + 12)
  let nextBlk := read4 buffer ((header.pd_special : Int) + 4)
  if P_ISLEAF flags = false ∧ offnum = P_FIRSTDATAKEY nextBlk ∧ dlen = 0 then 0
  else
    let r := attr_loop buffer linp (IndexTupleHasNulls info) dlen rel.atts 0 off len0 0
    r.1 + (if MAXALIGN_I r.2 > (linp.lp_off : Int) + (linp.lp_len : Int) then 1 else 0)

/-! ## check_index_tuple (index.c lines 138-203) -/

/-- The four open-interval comparisons of index.c line 188:
[A,C,B] or [A,D,B] or [C,A,D] or [C,B,D]. -/
def fourway (a b c d : Nat) : Bool :=
  (decide (a < c) && decide (c < b)) || (decide (a < d) && decide (d < b)) ||
  (decide (c < a) && decide (a < d)) || (decide (c < b) && decide (b < d))

/-- The intersection loop of check_index_tuple, index.c lines 162-196: slot i
against every slot j < i, slots whose lp_flags is not LP_NORMAL skipped,
one error per pair satisfying the four-way test. -/
def overlap_errors (linp : List ItemIdData) (i : Nat) : Nat :=
  let lp := linp.getD i default
  let a := lp.lp_off
  let b := lp.lp_off + lp.lp_len
  (List.range i).foldl
    (fun nerrs j =>
      let lp2 := linp.getD j default
      if lp2.lp_flags = LP_NORMAL then
        if fourway a b (lp2.lp_off) (lp2.lp_off + lp2.lp_len) then nerrs + 1 else nerrs
      else nerrs) 0

/-- The same count written as List.countP: the number of j < i whose slot is
LP_NORMAL and passes the four-way test against slot i's byte range. -/
def overlap_pair_count (linp : List ItemIdData) (i : Nat) : Nat :=
  (List.range i).countP (fun j =>
    decide ((linp.getD j default).lp_flags = LP_NORMAL) &&
    fourway (linp.getD i default).lp_off
      ((linp.getD i default).lp_off + (linp.getD i default).lp_len)
      (linp.getD j default).lp_off
      ((linp.getD j default).lp_off + (linp.getD j default).lp_len))

/-- check_index_tuple, index.c lines 138-203: itup and dlen are computed
unconditionally from the bytes at buffer + lp_off (t_info at lp_off + 6),
the intersection loop runs for every slot, and the attribute checks run
only when lp_flags == LP_NORMAL. -/
def check_index_tuple (rel : Relation) (header : PageHeaderData) (block : Nat)
    (i : Nat) (buffer : Nat → Nat) (len0 : Int) : Nat :=
  let lp := header.pd_linp.getD i default
  let info := t_info buffer lp.lp_off
  let dlen : Int := (IndexTupleSize info : Int) - (IndexInfoFindDataOffset info : Int)
  overlap_errors header.pd_linp i +
  (if lp.lp_flags = LP_NORMAL then
     check_index_tuple_attributes rel header block (i + 1) buffer dlen len0
   else 0)

/-- check_index_tuples, index.c lines 108-134: check_index_tuple over slots
0 .. PageGetMaxOffsetNumber - 1, summing the error counts. -/
def check_index_tuples (rel : Relation) (header : PageHeaderData)
    (buffer : Nat → Nat) (block : Nat) (len0 : Int) : Nat :=
  (List.range (PageGetMaxOffsetNumber header)).foldl
    (fun nerrs i => nerrs + check_index_tuple rel header block i buffer len0) 0

/-! ## Concrete pages used by the theorems below -/

/-- The all-zero page byte map. -/
def bufZero : Nat → Nat := fun _ => 0

/-- An empty schema (no attributes). -/
def relEmpty : Relation := ⟨[]⟩

/-- A page whose only slot points far outside the 8192-byte buffer
(lp_off = 20000) and is not LP_NORMAL. -/
def hdrC1 : PageHeaderData := ⟨28, 100, 8176, [⟨20000, LP_UNUSED, 8⟩]⟩

/-- Two LP_NORMAL slots with identical nonempty byte ranges
[6000, 6100). -/
def linpC2 : List ItemIdData := [⟨6000, LP_NORMAL, 100⟩, ⟨6000, LP_NORMAL, 100⟩]

/-- Schema with a single varlena column (attlen -1, by-reference,
int alignment). -/
def relC3 : Relation := ⟨[⟨-1, false, 'i'⟩]⟩

/-- Page for the compressed-varlena raw-size check: the slot at 6004 holds a
tuple (t_info = 16, so dlen = 16 - 8 = 8) whose single attribute at 6012
is a compressed 4-byte-header varlena: header word 50 = (12 << 2) | 2
(VARSIZE_4B = 12, compressed bit set) and va_rawsize = 32 * 65536 =
2 MiB at 6016.  Byte 8188 sets BTP_LEAF in the trailer at pd_special =
8176. -/
def bufC3 : Nat → Nat := fun i =>
  if i = 6010 then 16 else if i = 6012 then 50 else if i = 6018 then 32
  else if i = 8188 then 1 else 0

def hdrC3 : PageHeaderData := ⟨28, 6004, 8176, [⟨6004, LP_NORMAL, 20⟩]⟩

/-- Schema: a fixed int4 column followed by a C-string column
(attlen -2, by-reference, char alignment). -/
def relC4 : Relation := ⟨[⟨4, true, 'i'⟩, ⟨-2, false, 'c'⟩]⟩

/-- Slot for the C-string scan: tuple at 6000 of slot length 24. -/
def lpC4 : ItemIdData := ⟨6000, LP_NORMAL, 24⟩

/-- Page for the C-string scan: t_info = 24 at 6006 (dlen = 24 - 8 = 16),
the int4 at 6008, and no NUL byte anywhere in 6012..6027, so the string
that starts at 6012 is unterminated within the tuple (which ends at
6024) and for 4 bytes beyond it. -/
def bufC4 : Nat → Nat := fun i =>
  if i = 6006 then 24 else if 6012 ≤ i ∧ i ≤ 6027 then 1
  else if i = 8188 then 1 else 0

def hdrC4 : PageHeaderData := ⟨28, 6000, 8176, [lpC4]⟩

/-- Slot used by the attribute-overflow witness. -/
def lpC5w : ItemIdData := ⟨6000, LP_NORMAL, 24⟩

/-- A fixed-width attribute of declared length 100 (char alignment). -/
def attrC5w : PgAttribute := ⟨100, true, 'c'⟩

/-- Schema with a single fixed int4 column. -/
def relC6 : Relation := ⟨[⟨4, true, 'i'⟩]⟩

/-- Page with a Normal slot at 8000 of slot length 16 whose tuple header
says IndexTupleSize = 4 (t_info = 4 at 8006), so dlen = 4 - 8 = -4. -/
def bufC6 : Nat → Nat := fun i => if i = 8006 then 4 else if i = 8188 then 1 else 0

def hdrC6 : PageHeaderData := ⟨28, 8000, 8176, [⟨8000, LP_NORMAL, 16⟩]⟩

/-- Trailer bytes at pd_special = 8176: btpo.level = 3 (uint32 at 8184),
btpo_flags = BTP_LEAF (uint16 at 8188): a non-deleted leaf page with a
nonzero level. -/
def bufC7 : Nat → Nat := fun i => if i = 8184 then 3 else if i = 8188 then 1 else 0

/-- A meta page with the correct magic 0x053162 (bytes 0x62 0x31 0x05 0x00
at 24..27) and version 2 at 28..31. -/
def bufC8 : Nat → Nat := fun i =>
  if i = 24 then 0x62 else if i = 25 then 0x31 else if i = 26 then 5
  else if i = 28 then 2 else 0

/-- Slot 0 is LP_NORMAL [6000, 6100); slot 1 is LP_UNUSED with byte range
[6050, 6150) overlapping slot 0. -/
def hdrC10 : PageHeaderData := ⟨32, 100, 8176, [⟨6000, LP_NORMAL, 100⟩, ⟨6050, LP_UNUSED, 100⟩]⟩

/-! ## Helper lemmas -/

lemma foldl_add_eq_sum (f : Nat → Nat) (n : Nat) :
    (List.range n).foldl (fun a i => a + f i) 0 = Finset.sum (Finset.range n) f := by
  induction n with
  | zero => simp
  | succ n ih =>
    rw [List.range_succ, List.foldl_append, Finset.sum_range_succ, ih]
    simp

lemma foldl_nested_if (q : Nat → Prop) [DecidablePred q] (r : Nat → Bool) (l : List Nat) :
    ∀ n : Nat,
      l.foldl (fun a j => if q j then (if r j then a + 1 else a) else a) n
        = n + l.countP (fun j => decide (q j) && r j) := by
  induction l with
  | nil => intro n; simp
  | cons x l ih =>
    intro n
    simp only [List.foldl_cons, List.countP_cons]
    by_cases hq : q x <;> cases hr : r x <;> simp [hq, hr, ih] <;> omega

lemma overlap_errors_eq_count (linp : List ItemIdData) (i : Nat) :
    overlap_errors linp i = overlap_pair_count linp i := by
  unfold overlap_errors overlap_pair_count
  rw [foldl_nested_if (fun j => (linp.getD j default).lp_flags = LP_NORMAL)
    (fun j => fourway (linp.getD i default).lp_off
      ((linp.getD i default).lp_off + (linp.getD i default).lp_len)
      (linp.getD j default).lp_off
      ((linp.getD j default).lp_off + (linp.getD j default).lp_len))]
  simp


/-! ## Claim theorems -/

/-- C1: the claim says every computed offset derived from the page buffer is
bounds-checked against [0, BLCKSZ) before being dereferenced, with
out-of-range cases converted into reported errors.  The code does the
opposite: check_index_tuple dereferences the tuple header at
buffer + lp_off unconditionally (t_info at lp_off + 6, index.c lines
147/154).  On a page whose slot 0 has lp_off = 20000 the dereferenced
address 20006 lies outside the 8192-byte buffer, and zero errors are
reported. -/
theorem C1_unchecked_deref :
    check_index_tuple relEmpty hdrC1 0 0 bufZero 0 = 0 ∧
    BLCKSZ ≤ t_info_addr (hdrC1.pd_linp.getD 0 default).lp_off := by decide

/-- C2 counterexample: two LP_NORMAL slots with identical nonempty ranges
[6000, 6100) overlap in 100 bytes (each range's start lies before the
other's end), yet the intersection loop of check_index_tuple reports zero
errors for the pair — the claim demanded exactly one. -/
theorem C2_counterexample :
    overlap_errors linpC2 1 = 0 ∧
    (linpC2.getD 0 default).lp_flags = LP_NORMAL ∧
    (linpC2.getD 1 default).lp_flags = LP_NORMAL ∧
    (linpC2.getD 1 default).lp_off <
      (linpC2.getD 0 default).lp_off + (linpC2.getD 0 default).lp_len ∧
    (linpC2.getD 0 default).lp_off <
      (linpC2.getD 1 default).lp_off + (linpC2.getD 1 default).lp_len := by decide

/-- C2 (amended): for a pair of slots with nonempty ranges [a,b) and [c,d),
the four-way open-interval test of index.c line 188 holds iff the ranges
overlap in at least one byte (a < d and c < b) AND are not identical — the
exactly-equal pair slips through all four strict comparisons.  The error
count of the intersection loop is exactly the number of earlier LP_NORMAL
slots passing that test, so each qualifying pair contributes exactly one
error and each disjoint or identical pair contributes none. -/
theorem C2_overlap_amended :
    (∀ a b c d : Nat, a < b → c < d →
      (fourway a b c d = true ↔ ((a < d ∧ c < b) ∧ ¬(a = c ∧ b = d)))) ∧
    (∀ (linp : List ItemIdData) (i : Nat),
      overlap_errors linp i = overlap_pair_count linp i) := by
  constructor
  · intro a b c d hab hcd
    simp only [fourway, Bool.or_eq_true, Bool.and_eq_true, decide_eq_true_eq]
    omega
  · exact overlap_errors_eq_count

/-- C2 witness: the characterization applied to the concrete ranges
[10, 20) and [12, 15). -/
theorem C2_witness :
    fourway 10 20 12 15 = true ↔ ((10 < 15 ∧ 12 < 20) ∧ ¬(10 = 12 ∧ 20 = 15)) :=
  C2_overlap_amended.1 10 20 12 15 (by decide) (by decide)

/-- C3: the claim (and the code's own comment and warning text) say the raw
size of a compressed varlena is valid in (0, 1 GiB].  The code at index.c
line 301 instead flags rawsize < 0 or rawsize > 1024*1024 (1 MiB): for a
compressed attribute with raw size 2 MiB — inside (0, 1 GiB], so the claim
says zero errors — check_index_tuple_attributes reports one error. -/
theorem C3_compressed_rawsize_bound :
    check_index_tuple_attributes relC3 hdrC3 0 1 bufC3 8 0 = 1 ∧
    VARATT_IS_COMPRESSED bufC3 6012 = true ∧
    VARRAWSIZE_4B_C bufC3 6012 = 2097152 ∧
    (0 : Int) < 2097152 ∧ (2097152 : Int) ≤ 1073741824 := by decide

/-- C4: the claim says the C-string scan is bounded by tuple_end − off and an
unterminated string yields length remaining_space + 1.  The strnlen bound
at index.c line 319 is lp_off + len + lp_len − off where len is the
loop-local variable before this iteration assigned it (here 4, the
previous fixed attribute's length): at off = 6012 in a tuple ending at
6024 the bound is 16 = remaining + 4, the scan covers 4 bytes beyond the
tuple end, and the unterminated string yields length 17, not
remaining + 1 = 13. -/
theorem C4_cstring_scan_bound :
    varwidth_len bufC4 lpC4 6012 4 = 17 ∧
    ((lpC4.lp_off : Int) + (lpC4.lp_len : Int) - 6012) + 1 = 13 ∧
    toSizeT ((lpC4.lp_off : Int) + 4 + (lpC4.lp_len : Int) - 6012) = 16 ∧
    (lpC4.lp_off : Int) + (lpC4.lp_len : Int) = 6024 ∧
    check_index_tuple_attributes relC4 hdrC4 0 1 bufC4 16 0 = 1 := by decide

/-- C5: (1) the decoded varlena length is never negative — VARSIZE_ANY is an
unsigned decode — so the negative-length break of index.c line 295 can
never fire and attr_step always returns ok (the claim's negative-length
case holds vacuously); (2) when the overflow condition of line 332 holds
for an attribute (dlen > 0 and aligned off + len beyond the tuple end),
the attribute loop stops immediately — the remaining attributes are
discarded — and returns exactly one more error than the step produced;
(3) the page-level total of check_index_tuples is the sum of the
per-slot check_index_tuple counts. -/
theorem C5_decode_halt_and_sum :
    (∀ (buffer : Nat → Nat) (lp : ItemIdData) (off lenPrev : Int) (nerrs : Nat)
      (attr : PgAttribute),
      ∃ p, attr_step buffer lp off lenPrev nerrs attr = Except.ok p) ∧
    (∀ (buffer : Nat → Nat) (lp : ItemIdData) (hasNulls : Bool) (dlen : Int)
      (attr : PgAttribute) (rest : List PgAttribute) (j : Nat)
      (off lenPrev off1 len : Int) (nerrs nerrs1 : Nat),
      (hasNulls && att_isnull j buffer (lp.lp_off + 8)) = false →
      off1 = att_align_pointer off attr.attalign attr.attlen buffer →
      attr_step buffer lp off1 lenPrev nerrs attr = Except.ok (len, nerrs1) →
      dlen > 0 →
      off1 + len > (lp.lp_off : Int) + (lp.lp_len : Int) →
      attr_loop buffer lp hasNulls dlen (attr :: rest) j off lenPrev nerrs
        = (nerrs1 + 1, off1)) ∧
    (∀ (rel : Relation) (header : PageHeaderData) (buffer : Nat → Nat) (block : Nat)
      (len0 : Int),
      check_index_tuples rel header buffer block len0 =
        Finset.sum (Finset.range (PageGetMaxOffsetNumber header))
          (fun i => check_index_tuple rel header block i buffer len0)) := by
  refine ⟨?_, ?_, ?_⟩
  · intro buffer lp off lenPrev nerrs attr
    by_cases h1 : attr.attbyval = false ∧ attr.attlen = -1
    · have h0 : ¬((VARSIZE_ANY buffer off : Int) < 0) := by
        simp only [not_lt]
        exact Int.natCast_nonneg _
      simp only [attr_step, if_pos h1, if_neg h0]
      by_cases h2 : VARATT_IS_COMPRESSED buffer off = true ∧
          (VARRAWSIZE_4B_C buffer off < 0 ∨ VARRAWSIZE_4B_C buffer off > 1024 * 1024)
      · rw [if_pos h2]; exact ⟨_, rfl⟩
      · rw [if_neg h2]; exact ⟨_, rfl⟩
    · simp only [attr_step, if_neg h1]
      by_cases h2 : attr.attbyval = false ∧ attr.attlen < 0
      · rw [if_pos h2]; exact ⟨_, rfl⟩
      · rw [if_neg h2]; exact ⟨_, rfl⟩
  · intro buffer lp hasNulls dlen attr rest j off lenPrev off1 len nerrs nerrs1
      hskip hoff hstep hdlen hover
    subst hoff
    simp only [attr_loop, hskip, Bool.false_eq_true, if_false, hstep]
    rw [if_pos ⟨hdlen, hover⟩]
  · intro rel header buffer block len0
    unfold check_index_tuples
    exact foldl_add_eq_sum _ _

/-- C5 witness: a fixed-width attribute of declared length 100 at aligned
offset 6008 in a tuple ending at 6024 with dlen = 16 overflows; the loop
returns exactly one error and stops. -/
theorem C5_witness :
    attr_loop bufZero lpC5w false 16 [attrC5w] 0 6008 0 0 = (1, 6008) :=
  C5_decode_halt_and_sum.2.1 bufZero lpC5w false 16 attrC5w [] 0 6008 0 6008 100 0 0
    (by decide) (by decide) (by rfl) (by decide) (by decide)

/-- C6: the claim says a slot whose dlen = IndexTupleSize −
IndexInfoFindDataOffset is negative is reported and counted as a parse
error.  The code never tests dlen < 0 (only dlen == 0 and dlen > 0, which
silently disable the overflow check and the offset advance): on a Normal
slot with t_info declaring size 4 (dlen = −4), check_index_tuple reports
zero errors. -/
theorem C6_negative_dlen_unreported :
    (IndexTupleSize (t_info bufC6 8000) : Int)
      - (IndexInfoFindDataOffset (t_info bufC6 8000) : Int) = -4 ∧
    check_index_tuple relC6 hdrC6 0 0 bufC6 0 = 0 := by decide

/-- C7: on a regular page, the level-consistency part of check_index_page
reports exactly one error when a non-deleted page is leaf with nonzero
level or non-leaf with zero level, zero errors in the two consistent
cases, and zero errors on a deleted page whatever its level; the last
conjunct places level_errors inside check_index_page for every non-meta
block. -/
theorem C7_level_consistency (buffer : Nat → Nat) (sp : Nat) :
    (P_ISDELETED (read2 buffer ((sp : Int) + 12)) = true →
      level_errors buffer sp = 0) ∧
    (P_ISDELETED (read2 buffer ((sp : Int) + 12)) = false →
      ((P_ISLEAF (read2 buffer ((sp : Int) + 12)) = true ∧
          read4 buffer ((sp : Int) + 8) ≠ 0) → level_errors buffer sp = 1) ∧
      ((P_ISLEAF (read2 buffer ((sp : Int) + 12)) = true ∧
          read4 buffer ((sp : Int) + 8) = 0) → level_errors buffer sp = 0) ∧
      ((P_ISLEAF (read2 buffer ((sp : Int) + 12)) = false ∧
          read4 buffer ((sp : Int) + 8) = 0) → level_errors buffer sp = 1) ∧
      ((P_ISLEAF (read2 buffer ((sp : Int) + 12)) = false ∧
          read4 buffer ((sp : Int) + 8) ≠ 0) → level_errors buffer sp = 0)) ∧
    (∀ (header : PageHeaderData) (block : Nat), block ≠ 0 →
      check_index_page header buffer block =
        check_page_header header block +
          special_space_error sizeof_btpo_ptr header.pd_special +
          level_errors buffer header.pd_special) := by
  refine ⟨?_, ?_, ?_⟩
  · intro h
    simp [level_errors, h]
  · intro h
    refine ⟨?_, ?_, ?_, ?_⟩ <;> rintro ⟨h1, h2⟩ <;> simp [level_errors, h, h1, h2]
  · intro header block hb
    simp [check_index_page, hb, Nat.add_assoc]

/-- C7 witness: a non-deleted leaf trailer with level 3 yields exactly one
level-consistency error. -/
theorem C7_witness : level_errors bufC7 8176 = 1 :=
  ((C7_level_consistency bufC7 8176).2.1 (by decide)).1 ⟨by decide, by decide⟩

/-- C8: the meta-page checks of check_index_page test magic and version
unconditionally and independently: correct pair → 0 errors, one field
wrong → 1 error each, both wrong → 2 errors; the last conjunct places
metapage_errors inside check_index_page at block 0. -/
theorem C8_meta_checks (buffer : Nat → Nat) :
    (btm_magic buffer = BTREE_MAGIC ∧ btm_version buffer = BTREE_VERSION →
      metapage_errors buffer = 0) ∧
    (btm_magic buffer ≠ BTREE_MAGIC ∧ btm_version buffer = BTREE_VERSION →
      metapage_errors buffer = 1) ∧
    (btm_magic buffer = BTREE_MAGIC ∧ btm_version buffer ≠ BTREE_VERSION →
      metapage_errors buffer = 1) ∧
    (btm_magic buffer ≠ BTREE_MAGIC ∧ btm_version buffer ≠ BTREE_VERSION →
      metapage_errors buffer = 2) ∧
    (∀ header : PageHeaderData,
      check_index_page header buffer 0 =
        check_page_header header 0 + metapage_errors buffer) := by
  refine ⟨?_, ?_, ?_, ?_, ?_⟩
  · rintro ⟨h1, h2⟩; simp [metapage_errors, h1, h2]
  · rintro ⟨h1, h2⟩; simp [metapage_errors, h1, h2]
  · rintro ⟨h1, h2⟩; simp [metapage_errors, h1, h2]
  · rintro ⟨h1, h2⟩; simp [metapage_errors, h1, h2]
  · intro header; simp [check_index_page]

/-- C8 witness: a meta page with the correct magic and version yields zero
meta errors. -/
theorem C8_witness : metapage_errors bufC8 = 0 :=
  (C8_meta_checks bufC8).1 ⟨by decide, by decide⟩

/-- C9: the claim (and the spec's scenario) say pd_special = 8180 on an
8192-byte page must yield a header error because less than one trailer
(sizeof(BTPageOpaqueData) = 16; the spec's scenario even says 24) fits.
The code at index.c line 64 compares against BLCKSZ − sizeof(BTPageOpaque)
where BTPageOpaque is a pointer typedef — 8 bytes on LP64, 4 on a 32-bit
build — so the threshold is 8184 (resp. 8188) and 8180 yields NO error;
8100 yields none either (as the claim also says). -/
theorem C9_special_space_pointer_sizeof :
    special_space_error sizeof_btpo_ptr 8100 = 0 ∧
    special_space_error sizeof_btpo_ptr 8180 = 0 ∧
    special_space_error 4 8180 = 0 ∧
    BLCKSZ - sizeof_btpo_data < 8180 ∧
    BLCKSZ - 24 < 8180 := by decide

/-- C10: check_index_tuple always equals the overlap pair count (one error
per earlier LP_NORMAL slot passing the four-way test) plus the attribute
errors gated on slot i itself being LP_NORMAL; in particular a slot whose
own flag is Unused, Redirect or Dead still gets the full overlap count. -/
theorem C10_overlap_ungated :
    (∀ (rel : Relation) (header : PageHeaderData) (block i : Nat)
      (buffer : Nat → Nat) (len0 : Int),
      check_index_tuple rel header block i buffer len0 =
        overlap_pair_count header.pd_linp i +
        (if (header.pd_linp.getD i default).lp_flags = LP_NORMAL then
          check_index_tuple_attributes rel header block (i + 1) buffer
            ((IndexTupleSize (t_info buffer (header.pd_linp.getD i default).lp_off) : Int) -
             (IndexInfoFindDataOffset (t_info buffer (header.pd_linp.getD i default).lp_off) : Int))
            len0
         else 0)) ∧
    (∀ (rel : Relation) (header : PageHeaderData) (block i : Nat)
      (buffer : Nat → Nat) (len0 : Int),
      (header.pd_linp.getD i default).lp_flags ≠ LP_NORMAL →
      check_index_tuple rel header block i buffer len0 =
        overlap_pair_count header.pd_linp i) := by
  constructor
  · intro rel header block i buffer len0
    simp only [check_index_tuple]
    rw [overlap_errors_eq_count]
  · intro rel header block i buffer len0 h
    simp only [check_index_tuple, if_neg h]
    rw [overlap_errors_eq_count, Nat.add_zero]

/-- C10 witness: slot 1 is LP_UNUSED with range [6050, 6150) overlapping the
earlier LP_NORMAL slot [6000, 6100): check_index_tuple still counts the
pair, returning the overlap pair count 1. -/
theorem C10_witness :
    check_index_tuple relEmpty hdrC10 0 1 bufZero 0 = overlap_pair_count hdrC10.pd_linp 1 ∧
    overlap_pair_count hdrC10.pd_linp 1 = 1 :=
  ⟨C10_overlap_ungated.2 relEmpty hdrC10 0 1 bufZero 0 (by decide), by decide⟩
